import Mathlib

/-!
# Verification of the LLM-Flatpaks-For-Linux wrapper logic

A shallow embedding of the window-lifecycle, navigation-policy and
relaunch-gate logic of the Electron wrapper scripts in this repository
(`claude-linux-flatpak/main.js`, the ChatGPT `main.js`, the Grok entry
script, and the Lumo script embedded in `lumo-linux-flatpak/compile.sh`),
together with theorems about the behaviour of that logic.

The host runtime's WHATWG URL parser (`new URL(s)`) is not part of the
repository; it is modelled as an abstract parameter
`parse : String → Option URLRecord`, with `none` meaning that the
constructor throws.  A small concrete parser `parseSimpleURL` is provided
so that properties can be evaluated at concrete inputs.
-/

namespace Wrapper

/-- The fields of a parsed WHATWG URL that the wrapper code reads:
`u.protocol` (scheme including the trailing colon, e.g. `"https:"`) and
`u.hostname`. -/
structure URLRecord where
  protocol : String
  hostname : String
deriving Repr, DecidableEq

/-- The host runtime's `new URL` constructor, abstracted: `none` models a
thrown `TypeError` (malformed URL). -/
abbrev UrlParse := String → Option URLRecord

/-- `s.toLowerCase()` of JavaScript, written on the character list so that
the kernel can evaluate it (hostnames are ASCII). -/
def lowerStr (s : String) : String := String.mk (s.toList.map Char.toLower)

/-- `s.endsWith(suffix)` of JavaScript, written on the character lists so
that the kernel can evaluate it. -/
def endsWithStr (s suffix : String) : Bool := List.isSuffixOf suffix.toList s.toList

/-- Splits `scheme "://" rest` at the first `"://"`; helper for
`parseSimpleURL`. -/
def splitScheme : List Char → Option (List Char × List Char)
  | [] => none
  | c :: cs =>
    if c = ':' then
      match cs with
      | '/' :: '/' :: tail => some ([], tail)
      | _ => none
    else
      match splitScheme cs with
      | some (sch, rest) => some (c :: sch, rest)
      | none => none

/-- A small concrete URL reader standing in for the host `new URL` at
concrete test inputs: accepts `scheme://host[/?#:…]` with nonempty scheme
and host, and fails on everything else (in particular on `""`). -/
def parseSimpleURL : UrlParse := fun s =>
  match splitScheme s.toList with
  | none => none
  | some (sch, rest) =>
    if sch = [] then none
    else
      let host := rest.takeWhile fun c => c ≠ '/' && c ≠ '?' && c ≠ '#' && c ≠ ':'
      if host = [] then none
      else some ⟨String.mk (sch ++ [':']), String.mk host⟩

/-- `ALLOWED_HOSTS` of `claude-linux-flatpak/main.js`. -/
def CLAUDE_ALLOWED_HOSTS : List String :=
  ["claude.ai", "anthropic.com", "cloudflare.com", "claudeusercontent.com",
   "cloudflareinsights.com"]

/-- `ALLOWED_HOSTS` of the ChatGPT variant of `main.js`. -/
def CHATGPT_ALLOWED_HOSTS : List String :=
  ["chatgpt.com", "openai.com", "oaiusercontent.com", "oaistatic.com",
   "challenges.cloudflare.com"]

/-- `ALLOWED_HOSTS` of the Grok variant (the unnamed entry script). -/
def GROK_ALLOWED_HOSTS : List String :=
  ["grok.com", "x.ai", "cloudflare.com", "xai.com", "cloudflareinsights.com",
   "grokipedia.com", "grokusercontent.com"]

/-- `ALLOWED_HOSTS` of the Lumo script in `lumo-linux-flatpak/compile.sh`. -/
def LUMO_ALLOWED_HOSTS : List String :=
  ["proton.me"]

/-- `isAllowed(urlString)`: identical in all four wrapper variants up to
the allow-list, so the list is a parameter.

```js
try {
  const u = new URL(urlString);
  if (u.protocol !== 'https:') return false;
  const host = u.hostname.toLowerCase();
  return ALLOWED_HOSTS.some(a => host === a || host.endsWith(`.${a}`));
} catch { return false; }
```
-/
def isAllowed (hosts : List String) (parse : UrlParse) (urlString : String) : Bool :=
  match parse urlString with
  | none => false
  | some u =>
    if u.protocol != "https:" then false
    else
      let host := lowerStr u.hostname
      hosts.any fun a => host == a || endsWithStr host ("." ++ a)

/-- `shouldOpenExternally(targetUrl)` (identical in all variants):

```js
try {
  const u = new URL(targetUrl);
  if (u.protocol !== 'http:' && u.protocol !== 'https:') return false;
  return !isAllowed(targetUrl);
} catch { return false; }
```
-/
def shouldOpenExternally (hosts : List String) (parse : UrlParse) (targetUrl : String) : Bool :=
  match parse targetUrl with
  | none => false
  | some u =>
    if u.protocol != "http:" && u.protocol != "https:" then false
    else !(isAllowed hosts parse targetUrl)

/-- C1: `isAllowed(u)` is `true` iff `u` parses as a URL, its scheme is
`https`, and its lowercased hostname equals an allow-list entry or ends
with `"."` followed by one; on a parse error or any other scheme it is
`false`, and a host that merely contains an entry as a substring
(`evila.com` against entry `a.com`) is rejected. -/
theorem isAllowed_spec (hosts : List String) (parse : UrlParse) (u : String) :
    (isAllowed hosts parse u = true ↔
      ∃ rec, parse u = some rec ∧ rec.protocol = "https:" ∧
        ∃ a ∈ hosts, (lowerStr rec.hostname = a ∨
          endsWithStr (lowerStr rec.hostname) ("." ++ a) = true)) ∧
    isAllowed ["a.com"] parseSimpleURL "https://evila.com/" = false := by
  constructor
  · unfold isAllowed
    cases hp : parse u with
    | none => simp
    | some rec =>
      by_cases hps : rec.protocol = "https:"
      · simp [hps, List.any_eq_true]
      · simp [hps]
  · decide

/-- C7: `shouldOpenExternally(u)` is `true` iff `u` parses with scheme
`http` or `https` and `isAllowed(u)` is `false`; it is `false` for every
other scheme and for every unparseable string. -/
theorem shouldOpenExternally_spec (hosts : List String) (parse : UrlParse) (u : String) :
    shouldOpenExternally hosts parse u = true ↔
      ∃ rec, parse u = some rec ∧ (rec.protocol = "http:" ∨ rec.protocol = "https:") ∧
        isAllowed hosts parse u = false := by
  unfold shouldOpenExternally
  cases hp : parse u with
  | none => simp
  | some rec =>
    by_cases h1 : rec.protocol = "http:" <;> by_cases h2 : rec.protocol = "https:" <;>
      simp [h1, h2]

example : isAllowed CLAUDE_ALLOWED_HOSTS parseSimpleURL "https://claude.ai/" = true := by decide
example : isAllowed CLAUDE_ALLOWED_HOSTS parseSimpleURL "https://api.claude.ai/x" = true := by decide
example : isAllowed CLAUDE_ALLOWED_HOSTS parseSimpleURL "http://claude.ai/" = false := by decide
example : isAllowed ["a.com"] parseSimpleURL "https://evila.com/" = false := by decide
example : isAllowed CLAUDE_ALLOWED_HOSTS parseSimpleURL "" = false := by decide
example : shouldOpenExternally CLAUDE_ALLOWED_HOSTS parseSimpleURL "http://x.org/" = true := by decide
example : shouldOpenExternally CLAUDE_ALLOWED_HOSTS parseSimpleURL "mailto:x@y.z" = false := by decide

/-! ## Network filter (`installNetworkLockdownOnce` request callback)

The `onBeforeRequest` callbacks of the four variants share one decision
structure and differ only in the logging of blocked requests:

* Claude and Lumo call `logBlockedUrl`, which prints only when
  `process.stdout.isTTY`;
* the Grok variant calls `console.log('[BLOCKED]', details.url)`
  unconditionally;
* the ChatGPT variant does not log at all.

Each callback is modelled as a function returning
`(a log line is emitted?, the value passed to cb)`. -/

/-- The argument of the request callback's `cb({cancel: …})`. -/
inductive ReqDecision where
  | cancel
  | allow
deriving Repr, DecidableEq

/-- `logIfTerminal(msg)` of the Claude/Lumo scripts: emits iff
`process.stdout.isTTY`. -/
def logIfTerminal (isTTY : Bool) : Bool := isTTY

/-- `logBlockedUrl(detailsUrl, why)` of the Claude/Lumo scripts, as
"was a line emitted": returns immediately when stdout is not a TTY;
otherwise prints the parsed origin/path, falling back to
`logIfTerminal` on the raw string when `new URL` throws. -/
def logBlockedUrl (isTTY : Bool) (parse : UrlParse) (detailsUrl : String) : Bool :=
  if !isTTY then false
  else
    match parse detailsUrl with
    | some _ => true
    | none => logIfTerminal isTTY

/-- The `onBeforeRequest` callback of `claude-linux-flatpak/main.js` (the
Lumo script is identical): non-`http(s)` schemes pass through, a blocked
or unparseable URL is logged through `logBlockedUrl` and cancelled. -/
def onBeforeRequestTTYLogged (hosts : List String) (isTTY : Bool) (parse : UrlParse)
    (url : String) : Bool × ReqDecision :=
  match parse url with
  | none => (logBlockedUrl isTTY parse url, .cancel)
  | some u =>
    if u.protocol != "http:" && u.protocol != "https:" then (false, .allow)
    else if !(isAllowed hosts parse url) then (logBlockedUrl isTTY parse url, .cancel)
    else (false, .allow)

/-- The `onBeforeRequest` callback of the Grok entry script:
`console.log('[BLOCKED]', details.url)` runs on every policy block, with
no terminal check; the catch branch cancels silently. -/
def onBeforeRequestConsoleLogged (hosts : List String) (_isTTY : Bool) (parse : UrlParse)
    (url : String) : Bool × ReqDecision :=
  match parse url with
  | none => (false, .cancel)
  | some u =>
    if u.protocol != "http:" && u.protocol != "https:" then (false, .allow)
    else if !(isAllowed hosts parse url) then (true, .cancel)
    else (false, .allow)

/-- The `onBeforeRequest` callback of the ChatGPT variant of `main.js`:
same decisions, never logs. -/
def onBeforeRequestSilent (hosts : List String) (parse : UrlParse)
    (url : String) : Bool × ReqDecision :=
  match parse url with
  | none => (false, .cancel)
  | some u =>
    if u.protocol != "http:" && u.protocol != "https:" then (false, .allow)
    else if !(isAllowed hosts parse url) then (false, .cancel)
    else (false, .allow)

/-- C2: in the network filter (shown for the Claude/Lumo callback and the
Grok callback, whose decisions coincide), a request is cancelled iff its
URL fails to parse, or parses with scheme `http`/`https` and fails
`isAllowed`; in particular a non-`http(s)` scheme always passes through
and an unparseable URL is always cancelled. -/
theorem networkFilter_cancel_spec (hosts : List String) (isTTY : Bool) (parse : UrlParse)
    (url : String) :
    ((onBeforeRequestTTYLogged hosts isTTY parse url).2 = ReqDecision.cancel ↔
      (parse url = none ∨
        ∃ rec, parse url = some rec ∧ (rec.protocol = "http:" ∨ rec.protocol = "https:") ∧
          isAllowed hosts parse url = false)) ∧
    (onBeforeRequestConsoleLogged hosts isTTY parse url).2 =
      (onBeforeRequestTTYLogged hosts isTTY parse url).2 := by
  unfold onBeforeRequestTTYLogged onBeforeRequestConsoleLogged
  cases hp : parse url with
  | none => simp
  | some rec =>
    by_cases h1 : rec.protocol = "http:" <;> by_cases h2 : rec.protocol = "https:" <;>
      by_cases ha : isAllowed hosts parse url <;>
        simp [h1, h2, ha]

/-- C8 (as amended): the Claude/Lumo callback and the ChatGPT callback
never produce output when stdout is not an interactive terminal. (The
Grok callback does: see the counterexample.) -/
theorem blockedLog_only_on_tty (hosts : List String) (parse : UrlParse) (url : String) :
    (onBeforeRequestTTYLogged hosts false parse url).1 = false ∧
    (onBeforeRequestSilent hosts parse url).1 = false := by
  unfold onBeforeRequestTTYLogged onBeforeRequestSilent logBlockedUrl
  cases hp : parse url with
  | none => simp
  | some rec =>
    by_cases h1 : rec.protocol = "http:" <;> by_cases h2 : rec.protocol = "https:" <;>
      by_cases ha : isAllowed hosts parse url <;>
        simp [h1, h2, ha]

/-- C8 counterexample: in the Grok variant, a policy-blocked request
(`https://evil.example/`, not on the Grok allow-list) emits a
`console.log` line even when stdout is not a terminal, contradicting the
claim that no wrapper variant produces output when stdout is not a TTY. -/
theorem blockedLog_grok_counterexample :
    (onBeforeRequestConsoleLogged GROK_ALLOWED_HOSTS false parseSimpleURL
        "https://evil.example/") = (true, ReqDecision.cancel) := by decide

/-! ## Restore-on-rerun state (`restore-state.json`)

The persisted file is modelled by what `readRestoreUrl` can observe of
it: an unreadable/corrupt/missing file (the catch branch), or a parsed
JSON record whose `restoreUrl` field is a string or is not. -/

/-- The observable states of `restore-state.json`. -/
inductive RestoreFile where
  /-- missing file, read error, or `JSON.parse` failure -/
  | unreadable
  /-- parsed record; the field is `some s` when `typeof data?.restoreUrl === 'string'` -/
  | record (restoreUrl : Option String)
deriving Repr, DecidableEq

/-- `readRestoreUrl()` (identical in all variants): the string field if
present, else `null`; every read error is swallowed into `null`. -/
def readRestoreUrl : RestoreFile → Option String
  | .unreadable => none
  | .record r => r

/-- The `startUrl` computation inside `createWindowOnce`:
`restoreUrl && isAllowed(restoreUrl) ? restoreUrl : defaultUrl`
(the `restoreUrl &&` also rejects the falsy empty string). -/
def startUrl (hosts : List String) (defaultUrl : String) (parse : UrlParse)
    (f : RestoreFile) : String :=
  match readRestoreUrl f with
  | none => defaultUrl
  | some u => if !u.isEmpty && isAllowed hosts parse u then u else defaultUrl

/-- The parts of the window set-up relevant to the restore record:
the chosen initial URL, and whether `clearRestoreUrl` was registered on
the first `did-finish-load`/`did-fail-load` (the source guards that
registration by `startUrl !== defaultUrl`). -/
structure WindowSetup where
  startUrl : String
  clearOnLoadOutcome : Bool
deriving Repr, DecidableEq

/-- The restore-related effects of the creation path of
`createWindowOnce` (identical in all variants up to `defaultUrl`). -/
def createWindowSetup (hosts : List String) (defaultUrl : String) (parse : UrlParse)
    (f : RestoreFile) : WindowSetup :=
  let s := startUrl hosts defaultUrl parse f
  { startUrl := s, clearOnLoadOutcome := s != defaultUrl }

/-- The state of `restore-state.json` once the first load outcome
(success or failure) is known: the registered `once` handlers run
`clearRestoreUrl` exactly when they were registered. -/
def fileAfterFirstLoadOutcome (w : WindowSetup) (f : RestoreFile) : RestoreFile :=
  if w.clearOnLoadOutcome then .unreadable else f

/-- C4: the initial URL equals the persisted record's `restoreUrl` when
the record is readable and allow-listed, and equals the wrapper's default
origin when the URL is disallowed or the record unreadable; no read error
escapes (the computation is total over all file states). The hypothesis
`isAllowed hosts parse "" = false` records that the host URL parser
rejects the empty string (as the WHATWG parser does). -/
theorem startUrl_spec (hosts : List String) (defaultUrl : String) (parse : UrlParse)
    (f : RestoreFile) (hempty : isAllowed hosts parse "" = false) :
    (∀ u, readRestoreUrl f = some u → isAllowed hosts parse u = true →
      startUrl hosts defaultUrl parse f = u) ∧
    (∀ u, readRestoreUrl f = some u → isAllowed hosts parse u = false →
      startUrl hosts defaultUrl parse f = defaultUrl) ∧
    (readRestoreUrl f = none → startUrl hosts defaultUrl parse f = defaultUrl) := by
  refine ⟨?_, ?_, ?_⟩
  · intro u hr ha
    by_cases he : u = ""
    · rw [he] at ha; rw [ha] at hempty; cases hempty
    · unfold startUrl
      rw [hr]
      simp [ha, String.isEmpty_iff, he]
  · intro u hr ha
    unfold startUrl
    rw [hr]
    simp [ha]
  · intro hr
    unfold startUrl
    rw [hr]

/-- Witness for `startUrl_spec`: a readable record holding the allowed
URL `https://claude.ai/new` is chosen as the initial URL of the Claude
wrapper. -/
theorem startUrl_spec_witness :
    startUrl CLAUDE_ALLOWED_HOSTS "https://claude.ai/" parseSimpleURL
      (RestoreFile.record (some "https://claude.ai/new")) = "https://claude.ai/new" :=
  (startUrl_spec CLAUDE_ALLOWED_HOSTS "https://claude.ai/" parseSimpleURL
      (RestoreFile.record (some "https://claude.ai/new")) (by decide)).1
    "https://claude.ai/new" rfl (by decide)

/-- C6 counterexample: a restore record holding exactly the default
origin `https://claude.ai/` is readable, allowed, and chosen as the
initial URL, yet the clearing handlers are not registered (the guard is
`startUrl !== 'https://claude.ai/'`), so the record survives the first
load outcome — the claim as stated fails. -/
theorem clearRestore_skipped_counterexample :
    readRestoreUrl (RestoreFile.record (some "https://claude.ai/")) =
        some "https://claude.ai/" ∧
    isAllowed CLAUDE_ALLOWED_HOSTS parseSimpleURL "https://claude.ai/" = true ∧
    (createWindowSetup CLAUDE_ALLOWED_HOSTS "https://claude.ai/" parseSimpleURL
        (RestoreFile.record (some "https://claude.ai/"))).startUrl = "https://claude.ai/" ∧
    fileAfterFirstLoadOutcome
        (createWindowSetup CLAUDE_ALLOWED_HOSTS "https://claude.ai/" parseSimpleURL
          (RestoreFile.record (some "https://claude.ai/")))
        (RestoreFile.record (some "https://claude.ai/")) ≠ RestoreFile.unreadable := by
  decide

/-- C6 (as amended): whenever startup reads a persisted restore record
with an allowed, nonempty URL that differs from the wrapper's default
origin, that URL is used as the initial URL and the record is deleted
once the first load outcome is known. -/
theorem clearRestore_after_load_outcome (hosts : List String) (defaultUrl : String)
    (parse : UrlParse) (f : RestoreFile) (u : String)
    (hr : readRestoreUrl f = some u) (ha : isAllowed hosts parse u = true)
    (hne : u ≠ "") (hnd : u ≠ defaultUrl) :
    (createWindowSetup hosts defaultUrl parse f).startUrl = u ∧
    fileAfterFirstLoadOutcome (createWindowSetup hosts defaultUrl parse f) f =
      RestoreFile.unreadable := by
  have hstart : startUrl hosts defaultUrl parse f = u := by
    unfold startUrl
    rw [hr]
    simp [ha, String.isEmpty_iff, hne]
  constructor
  · simpa [createWindowSetup] using hstart
  · unfold fileAfterFirstLoadOutcome createWindowSetup
    simp [hstart, hnd]

/-- Witness for `clearRestore_after_load_outcome`: a record holding
`https://claude.ai/new` is loaded and then deleted. -/
theorem clearRestore_after_load_outcome_witness :
    (createWindowSetup CLAUDE_ALLOWED_HOSTS "https://claude.ai/" parseSimpleURL
        (RestoreFile.record (some "https://claude.ai/new"))).startUrl =
      "https://claude.ai/new" ∧
    fileAfterFirstLoadOutcome
        (createWindowSetup CLAUDE_ALLOWED_HOSTS "https://claude.ai/" parseSimpleURL
          (RestoreFile.record (some "https://claude.ai/new")))
        (RestoreFile.record (some "https://claude.ai/new")) = RestoreFile.unreadable :=
  clearRestore_after_load_outcome CLAUDE_ALLOWED_HOSTS "https://claude.ai/" parseSimpleURL
    (RestoreFile.record (some "https://claude.ai/new")) "https://claude.ai/new"
    rfl (by decide) (by decide) (by decide)

/-! ## Relaunch/exit gate of the Grok variant (`relaunch-token.json`)

`Date.now()` is modelled by an explicit `now : Int` passed to each
operation; the two adjacent `Date.now()` calls inside one gate check
(in `shouldBlockThisLaunchDueToExitGate` and the
`consumeOneAllowedLaunchIfPresent` it invokes) are taken at the same
instant, and the re-read of the file inside the nested call sees the
same content, since nothing runs in between on the event loop. -/

/-- `RELAUNCH_GRACE_MS` of the Grok entry script. -/
def RELAUNCH_GRACE_MS : Int := 6000

/-- A parsed `relaunch-token.json` record as `readRelaunchToken` accepts
it: `token` a string, `ts` a number; `allowedLaunches` may be absent
(`none`), in which case every use goes through `?? 0`. -/
structure TokenRec where
  token : String
  ts : Int
  allowedLaunches : Option Int
deriving Repr, DecidableEq

/-- The argument of `writeRelaunchToken`: a bare string or an object
with a token and an optional launch count. -/
inductive WriteTokenArg where
  | str (s : String)
  | obj (token : String) (allowedLaunches : Option Int)
deriving Repr, DecidableEq

/-- `writeRelaunchToken(data)`: normalises either form to a full record
with `ts = Date.now()` and `allowedLaunches ?? 0`. -/
def writeRelaunchToken (now : Int) (d : WriteTokenArg) : Option TokenRec :=
  match d with
  | .str s => some ⟨s, now, some 0⟩
  | .obj t al => some ⟨t, now, some (al.getD 0)⟩

/-- `consumeOneAllowedLaunchIfPresent()`: returns its boolean result and
the resulting file state. A stale token (age above the grace window) is
deleted; a fresh token with a positive count is rewritten with the count
decremented by one. -/
def consumeOneAllowedLaunchIfPresent (now : Int) (file : Option TokenRec) :
    Bool × Option TokenRec :=
  match file with
  | none => (false, none)
  | some info =>
    if now - info.ts > RELAUNCH_GRACE_MS then (false, none)
    else if info.allowedLaunches.getD 0 ≤ 0 then (false, some info)
    else (true, some { info with allowedLaunches := some (info.allowedLaunches.getD 0 - 1) })

/-- `shouldBlockThisLaunchDueToExitGate()`: a missing token never
blocks; a stale token is deleted and never blocks; a fresh token with a
positive count is consumed and the launch proceeds; a fresh exhausted
token blocks. -/
def shouldBlockThisLaunchDueToExitGate (now : Int) (file : Option TokenRec) :
    Bool × Option TokenRec :=
  match file with
  | none => (false, none)
  | some info =>
    if now - info.ts > RELAUNCH_GRACE_MS then (false, none)
    else if info.allowedLaunches.getD 0 > 0 then
      (false, (consumeOneAllowedLaunchIfPresent now (some info)).2)
    else (true, some info)

/-- Runs a sequence of startup-gate checks at the given instants,
threading the file state; returns the list of block decisions and the
final file state. -/
def runChecks : Option TokenRec → List Int → List Bool × Option TokenRec
  | st, [] => ([], st)
  | st, now :: rest =>
    let r := shouldBlockThisLaunchDueToExitGate now st
    let rs := runChecks r.2 rest
    (r.1 :: rs.1, rs.2)

/-- Helper for the one-shot property: once the fresh token's count is
`0`, every further fresh check blocks and leaves the token unchanged. -/
theorem runChecks_exhausted_blocks (t : String) (ts : Int) (times : List Int)
    (h : ∀ x ∈ times, x - ts ≤ RELAUNCH_GRACE_MS) :
    runChecks (some ⟨t, ts, some 0⟩) times =
      (times.map fun _ => true, some ⟨t, ts, some 0⟩) := by
  induction times with
  | nil => rfl
  | cons x xs ih =>
    have hx : ¬(x - ts > RELAUNCH_GRACE_MS) := not_lt.mpr (h x (List.mem_cons_self x xs))
    have hxs := ih fun y hy => h y (List.mem_cons_of_mem x hy)
    unfold runChecks shouldBlockThisLaunchDueToExitGate
    simp [hx, hxs]

/-- C3: against a relaunch token written with `allowedLaunches = 1`, the
first check inside the 6000 ms grace window lets the launch proceed and
decrements the count to `0`; every further fresh-token check blocks; and
a check performed when the token's age exceeds the grace window deletes
the token and lets the launch proceed, whatever the remaining count. -/
theorem exitGate_one_shot (t : String) (ts now : Int) (rest : List Int)
    (hfresh : ∀ x ∈ now :: rest, x - ts ≤ RELAUNCH_GRACE_MS) :
    runChecks (some ⟨t, ts, some 1⟩) (now :: rest) =
      (false :: rest.map (fun _ => true), some ⟨t, ts, some 0⟩) ∧
    (∀ (info : TokenRec) (m : Int), m - info.ts > RELAUNCH_GRACE_MS →
      shouldBlockThisLaunchDueToExitGate m (some info) = (false, none)) := by
  constructor
  · have hx : ¬(now - ts > RELAUNCH_GRACE_MS) :=
      not_lt.mpr (hfresh now (List.mem_cons_self now rest))
    have hxs := runChecks_exhausted_blocks t ts rest
      fun y hy => hfresh y (List.mem_cons_of_mem now hy)
    unfold runChecks shouldBlockThisLaunchDueToExitGate consumeOneAllowedLaunchIfPresent
    simp [hx, hxs]
  · intro info m hm
    unfold shouldBlockThisLaunchDueToExitGate
    simp [hm]

/-- Witness for `exitGate_one_shot`: a token written at `ts = 0` with
one allowed launch, checked at instants 100, 2000 and 5000, lets the
first launch through and blocks the other two. -/
theorem exitGate_one_shot_witness :
    runChecks (some ⟨"tok", 0, some 1⟩) [100, 2000, 5000] =
      ([false, true, true], some ⟨"tok", 0, some 0⟩) :=
  (exitGate_one_shot "tok" 0 100 [2000, 5000] (by decide)).1

/-- The gate operations the Grok script can perform on
`relaunch-token.json`, each at an instant: the relaunch gesture's write
(`saveUrlAndExitWithGate` calls `writeRelaunchToken` with
`allowedLaunches: 1`), the startup-gate check, a bare consume, and
`clearRelaunchToken`. -/
inductive GateOp where
  | gesture (now : Int) (tok : String)
  | startupCheck (now : Int)
  | consume (now : Int)
  | clear
deriving Repr, DecidableEq

/-- Applies one gate operation to the file state. -/
def applyGateOp (file : Option TokenRec) : GateOp → Option TokenRec
  | .gesture now tok => writeRelaunchToken now (.obj tok (some 1))
  | .startupCheck now => (shouldBlockThisLaunchDueToExitGate now file).2
  | .consume now => (consumeOneAllowedLaunchIfPresent now file).2
  | .clear => none

/-- Applies a sequence of gate operations. -/
def applyGateOps (file : Option TokenRec) (ops : List GateOp) : Option TokenRec :=
  ops.foldl applyGateOp file

/-- The stored launch count, read through `?? 0`, is non-negative. -/
def tokenNonneg : Option TokenRec → Bool
  | none => true
  | some info => decide (0 ≤ info.allowedLaunches.getD 0)

/-- Each single gate operation preserves non-negativity of the stored
count. -/
theorem applyGateOp_nonneg (file : Option TokenRec) (op : GateOp)
    (h : tokenNonneg file = true) : tokenNonneg (applyGateOp file op) = true := by
  cases op with
  | gesture now tok => simp [applyGateOp, writeRelaunchToken, tokenNonneg]
  | clear => simp [applyGateOp, tokenNonneg]
  | consume now =>
    cases file with
    | none => simp [applyGateOp, consumeOneAllowedLaunchIfPresent, tokenNonneg]
    | some info =>
      by_cases hs : now - info.ts > RELAUNCH_GRACE_MS
      · simp [applyGateOp, consumeOneAllowedLaunchIfPresent, tokenNonneg, hs]
      · by_cases hc : info.allowedLaunches.getD 0 ≤ 0
        · simpa [applyGateOp, consumeOneAllowedLaunchIfPresent, tokenNonneg, hs, hc] using h
        · have : (0 : Int) ≤ info.allowedLaunches.getD 0 - 1 := by omega
          simp [applyGateOp, consumeOneAllowedLaunchIfPresent, tokenNonneg, hs, hc, this]
  | startupCheck now =>
    cases file with
    | none => simp [applyGateOp, shouldBlockThisLaunchDueToExitGate, tokenNonneg]
    | some info =>
      by_cases hs : now - info.ts > RELAUNCH_GRACE_MS
      · simp [applyGateOp, shouldBlockThisLaunchDueToExitGate, tokenNonneg, hs]
      · by_cases hc : info.allowedLaunches.getD 0 > 0
        · have h1 : ¬(info.allowedLaunches.getD 0 ≤ 0) := by omega
          have h2 : (0 : Int) ≤ info.allowedLaunches.getD 0 - 1 := by omega
          simp [applyGateOp, shouldBlockThisLaunchDueToExitGate,
            consumeOneAllowedLaunchIfPresent, tokenNonneg, hs, hc, h1, h2]
        · simpa [applyGateOp, shouldBlockThisLaunchDueToExitGate, tokenNonneg, hs, hc] using h

/-- C9: starting from any file state with a non-negative stored count,
every sequence of gate operations leaves the count non-negative — in
particular the count is decremented only when it is currently positive
(second conjunct), so no sequence of launch attempts drives it below
zero. -/
theorem gate_count_nonneg (ops : List GateOp) (file : Option TokenRec)
    (h : tokenNonneg file = true) :
    tokenNonneg (applyGateOps file ops) = true ∧
    (∀ (m : Int) (f : Option TokenRec), (consumeOneAllowedLaunchIfPresent m f).1 = true →
      ∃ info, f = some info ∧ 0 < info.allowedLaunches.getD 0) := by
  constructor
  · induction ops generalizing file with
    | nil => exact h
    | cons op rest ih => exact ih (applyGateOp file op) (applyGateOp_nonneg file op h)
  · intro m f hf
    cases f with
    | none => simp [consumeOneAllowedLaunchIfPresent] at hf
    | some info =>
      refine ⟨info, rfl, ?_⟩
      by_cases hs : m - info.ts > RELAUNCH_GRACE_MS
      · simp [consumeOneAllowedLaunchIfPresent, hs] at hf
      · by_cases hc : info.allowedLaunches.getD 0 ≤ 0
        · simp [consumeOneAllowedLaunchIfPresent, hs, hc] at hf
        · omega

/-- Witness for `gate_count_nonneg`: the gesture write followed by three
rapid launch attempts and a bare consume leaves a non-negative count. -/
theorem gate_count_nonneg_witness :
    tokenNonneg (applyGateOps none
      [GateOp.gesture 0 "tok", GateOp.startupCheck 100, GateOp.startupCheck 200,
       GateOp.consume 300]) = true :=
  (gate_count_nonneg
      [GateOp.gesture 0 "tok", GateOp.startupCheck 100, GateOp.startupCheck 200,
       GateOp.consume 300] none (by decide)).1

/-! ## Window lifecycle (`createWindowOnce`)

Only the synchronous entry of `createWindowOnce` decides whether a call
focuses the existing window, joins the in-flight creation promise, or
starts a new creation; the promise body runs later on the event loop.
That entry is modelled as a step function on the module state
(`win`, `creatingPromise`), promises being identified by numbers. -/

/-- A `BrowserWindow` reference as the lifecycle code observes it. -/
structure Win where
  id : Nat
  destroyed : Bool
deriving Repr, DecidableEq

/-- The module-level lifecycle state: `win`, `creatingPromise` (by id),
and a supply of fresh promise ids. -/
structure LifecycleState where
  win : Option Win
  creating : Option Nat
  nextPromiseId : Nat
deriving Repr, DecidableEq

/-- `focusExistingWindow()`: true iff `win` is set and not destroyed
(in which case the window is restored/shown/focused). -/
def focusExistingWindow (st : LifecycleState) : Bool :=
  match st.win with
  | none => false
  | some w => !w.destroyed

/-- What a call to `createWindowOnce` returns: the existing window, the
already-in-flight creation promise, or a freshly started creation. -/
inductive CreateResult where
  | existing (w : Win)
  | joined (p : Nat)
  | started (p : Nat)
deriving Repr, DecidableEq

/-- The `if (creatingPromise) return creatingPromise;` tail of
`createWindowOnce`, reached when no live window exists: join the
in-flight promise, or assign a fresh one.  (The Grok variant's extra
`isWindowCreationStarted` flag is always equal to `creatingPromise !==
null` at every event-loop turn — it is set at line 299 and the promise
assigned synchronously two lines later — so it adds no observable
behaviour and is not modelled separately.) -/
def createWindowOnceJoin (st : LifecycleState) : CreateResult × LifecycleState :=
  match st.creating with
  | some p => (.joined p, st)
  | none =>
    (.started st.nextPromiseId,
     { st with creating := some st.nextPromiseId, nextPromiseId := st.nextPromiseId + 1 })

/-- The synchronous entry of `createWindowOnce()`:
`if (focusExistingWindow()) return win;` then `createWindowOnceJoin`. -/
def createWindowOnce (st : LifecycleState) : CreateResult × LifecycleState :=
  match st.win with
  | some w => if w.destroyed then createWindowOnceJoin st else (.existing w, st)
  | none => createWindowOnceJoin st

/-- `n` back-to-back calls to `createWindowOnce` with no event-loop turn
(hence no promise resolution, no window creation) in between. -/
def runCreateCalls : LifecycleState → Nat → List CreateResult × LifecycleState
  | st, 0 => ([], st)
  | st, n + 1 =>
    let r := createWindowOnce st
    let rs := runCreateCalls r.2 n
    (r.1 :: rs.1, rs.2)

/-- Helper: while a creation is in flight and no window exists, every
call joins that same promise and leaves the state unchanged. -/
theorem runCreateCalls_joined (n : Nat) (st : LifecycleState) (p : Nat)
    (hw : st.win = none) (hc : st.creating = some p) :
    runCreateCalls st n = (List.replicate n (CreateResult.joined p), st) := by
  induction n with
  | zero => rfl
  | succ m ih =>
    unfold runCreateCalls
    simp [createWindowOnce, createWindowOnceJoin, hw, hc, ih, List.replicate_succ]

/-- C5: `createWindowOnce` never produces two live windows: with a live
window it returns it and leaves the state unchanged; with a creation in
flight it returns that same promise unchanged; and from the clean state,
`n + 1` back-to-back calls start exactly one creation, every later call
joining it. -/
theorem createWindowOnce_dedup :
    (∀ (st : LifecycleState) (w : Win), st.win = some w → w.destroyed = false →
      createWindowOnce st = (CreateResult.existing w, st)) ∧
    (∀ (st : LifecycleState) (p : Nat), st.win = none → st.creating = some p →
      createWindowOnce st = (CreateResult.joined p, st)) ∧
    (∀ (st : LifecycleState) (n : Nat), st.win = none → st.creating = none →
      (runCreateCalls st (n + 1)).1 =
        CreateResult.started st.nextPromiseId ::
          List.replicate n (CreateResult.joined st.nextPromiseId)) := by
  refine ⟨?_, ?_, ?_⟩
  · intro st w hw hd
    simp [createWindowOnce, hw, hd]
  · intro st p hw hc
    simp [createWindowOnce, createWindowOnceJoin, hw, hc]
  · intro st n hw hc
    have hrest := runCreateCalls_joined n
      { st with creating := some st.nextPromiseId, nextPromiseId := st.nextPromiseId + 1 }
      st.nextPromiseId (by simpa using hw) rfl
    rw [hw] at hrest
    unfold runCreateCalls
    simp [createWindowOnce, createWindowOnceJoin, hw, hc, hrest]

/-- Witness for `createWindowOnce_dedup`: three racing calls from the
clean state produce one `started` and two `joined` of the same
promise. -/
theorem createWindowOnce_dedup_witness :
    (runCreateCalls ⟨none, none, 0⟩ 3).1 =
      [CreateResult.started 0, CreateResult.joined 0, CreateResult.joined 0] := by
  have h := createWindowOnce_dedup.2.2 ⟨none, none, 0⟩ 2 rfl rfl
  simpa using h

/-! ## Lumo keyboard handling (`before-input-event`)

The Lumo script has the focus-grace guard twice with the same shape: in
the module-level `registerWindowShortcuts` (Ctrl/Cmd+Q quits, Ctrl/Cmd+W
closes the window) and inline in `createWindowOnce` (both Ctrl/Cmd+Q and
Ctrl/Cmd+W clear the restore record and quit).  `Date.now()` is the
explicit `now`, `lastFocusAt` the instant the window last gained
focus. -/

/-- The fields of the Electron `input` object the handlers read. -/
structure KeyInput where
  type : String
  key : String
  control : Bool
  meta : Bool
  shift : Bool
deriving Repr, DecidableEq

/-- The externally visible action a `before-input-event` handler takes. -/
inductive KeyEffect where
  | ignored
  | quit
  | quitAndReset
  | closeWin
  | reload
  | hardReload
  | toggleDevTools
  | toggleFullscreen
deriving Repr, DecidableEq

/-- The inline `before-input-event` handler installed by the Lumo
`createWindowOnce`: only `keyDown` events for the focused window count;
Ctrl/Cmd+W / Ctrl/Cmd+Q arriving with `0 ≤ now − lastFocusAt < 250` are
dropped; otherwise both clear the restore record and quit. -/
def lumoBeforeInputEffect (now lastFocusAt : Int) (focusedIsThisWin : Bool)
    (input : KeyInput) : KeyEffect :=
  if input.type != "keyDown" then .ignored
  else if !focusedIsThisWin then .ignored
  else
    let key := lowerStr input.key
    let ctrlOrCmd := input.control || input.meta
    if ctrlOrCmd && (key == "w" || key == "q") &&
        decide (0 ≤ now - lastFocusAt) && decide (now - lastFocusAt < 250) then .ignored
    else if ctrlOrCmd && key == "q" then .quitAndReset
    else if ctrlOrCmd && key == "w" then .quitAndReset
    else if ctrlOrCmd && !input.shift && key == "r" then .reload
    else if ctrlOrCmd && input.shift && key == "r" then .hardReload
    else if ctrlOrCmd && input.shift && key == "i" then .toggleDevTools
    else if input.key == "F11" then .toggleFullscreen
    else .ignored

/-- The module-level `registerWindowShortcuts` handler of the Lumo
script: same grace guard; Ctrl/Cmd+Q quits, Ctrl/Cmd+W closes the
window. -/
def registerWindowShortcutsEffect (now lastFocusAt : Int) (focusedIsThisWin : Bool)
    (input : KeyInput) : KeyEffect :=
  if input.type != "keyDown" then .ignored
  else if !focusedIsThisWin then .ignored
  else
    let key := lowerStr input.key
    let ctrlOrCmd := input.control || input.meta
    if ctrlOrCmd && (key == "w" || key == "q") &&
        decide (0 ≤ now - lastFocusAt) && decide (now - lastFocusAt < 250) then .ignored
    else if ctrlOrCmd && key == "q" then .quit
    else if ctrlOrCmd && key == "w" then .closeWin
    else if ctrlOrCmd && !input.shift && key == "r" then .reload
    else if ctrlOrCmd && input.shift && key == "r" then .hardReload
    else if ctrlOrCmd && input.shift && key == "i" then .toggleDevTools
    else if input.key == "F11" then .toggleFullscreen
    else .ignored

/-- C10: a Ctrl/Cmd+W or Ctrl/Cmd+Q `keyDown` for the focused Lumo
window arriving less than 250 ms after the window last gained focus is
ignored by both handlers — nothing closes and nothing quits; at or
beyond 250 ms the shortcut takes effect as usual. -/
theorem lumo_focus_grace (now lastFocusAt : Int) (focused : Bool) (input : KeyInput)
    (htype : input.type = "keyDown") (hfocus : focused = true)
    (hmod : (input.control || input.meta) = true)
    (hkey : lowerStr input.key = "w" ∨ lowerStr input.key = "q") :
    (0 ≤ now - lastFocusAt → now - lastFocusAt < 250 →
      lumoBeforeInputEffect now lastFocusAt focused input = KeyEffect.ignored ∧
      registerWindowShortcutsEffect now lastFocusAt focused input = KeyEffect.ignored) ∧
    (250 ≤ now - lastFocusAt →
      lumoBeforeInputEffect now lastFocusAt focused input = KeyEffect.quitAndReset ∧
      registerWindowShortcutsEffect now lastFocusAt focused input =
        (if lowerStr input.key = "q" then KeyEffect.quit else KeyEffect.closeWin)) := by
  subst hfocus
  constructor
  · intro h0 h1
    rcases hkey with hk | hk <;>
      simp [lumoBeforeInputEffect, registerWindowShortcutsEffect, htype, hmod, hk, h0, h1]
  · intro h250
    have h1 : ¬(now - lastFocusAt < 250) := by omega
    rcases hkey with hk | hk <;>
      simp [lumoBeforeInputEffect, registerWindowShortcutsEffect, htype, hmod, hk, h1]

/-- Witness for `lumo_focus_grace`: Ctrl+W 100 ms after focus is
dropped by the inline handler. -/
theorem lumo_focus_grace_witness :
    lumoBeforeInputEffect 100 0 true ⟨"keyDown", "W", true, false, false⟩ =
      KeyEffect.ignored :=
  ((lumo_focus_grace 100 0 true ⟨"keyDown", "W", true, false, false⟩
      rfl rfl (by decide) (Or.inl (by decide))).1 (by decide) (by decide)).1

end Wrapper
